import Mathlib

/-!
Verification development for the satellite-imagery download utilities
(`Satellites-Dataset-Download/utils.py`).

The Python module orchestrates calls into a remote geospatial API:
it builds region polygons, filters and normalizes image collections,
and schedules video-export tasks.  We embed it shallowly:

* Remote image-collection / geometry / number expressions are embedded
  as abstract syntax (`ICExpr`, `ImgExpr`, `NumExpr`, `Geom`, `Proj`):
  the local code only *builds* these expressions, so the faithful
  embedding of the local code records exactly the expression built.
* The per-pixel bit-manipulation semantics used by `getQABits` and
  `maskCloud` (select / bitwiseAnd / rightShift / eq / updateMask) are
  given a pixel-level model `EEImage`: a list of named integer band
  values at one pixel together with a mask bit.
* The normalization arithmetic of `norm_band` is modelled over `ℚ`.
* Fallible operations (Python `IndexError` on list indexing) return
  `Option`; the filesystem is a predicate `fs : String → Bool` giving
  `os.path.exists`.
-/

namespace SatUtils

/-- Pixel-level model of an `ee.Image` at one fixed pixel: the ordered
list of `(band name, integer value)` pairs and the mask bit (`true`
means the pixel is kept / unmasked). -/
structure EEImage where
  bands : List (String × Nat)
  mask : Bool
deriving DecidableEq, Repr

/-- Model of `image.select(name)`: keep the bands whose name matches. -/
def EEImage.selectName (img : EEImage) (name : String) : EEImage :=
  ⟨img.bands.filter (fun b => b.1 == name), img.mask⟩

/-- Model of `image.select([idx], [newName])`: pick the band at position `idx`
and rename it; fails (as the remote call would) if there is no such
band. -/
def EEImage.selectRename (img : EEImage) (idx : Nat) (newName : String) : Option EEImage :=
  match img.bands[idx]? with
  | some b => some ⟨[(newName, b.2)], img.mask⟩
  | none => none

/-- Apply a function to every band value of the pixel. -/
def EEImage.mapVals (img : EEImage) (f : Nat → Nat) : EEImage :=
  ⟨img.bands.map (fun b => (b.1, f b.2)), img.mask⟩

/-- Model of `image.bitwiseAnd(pattern)` at one pixel. -/
def EEImage.bitwiseAnd (img : EEImage) (pattern : Nat) : EEImage :=
  img.mapVals (fun v => v &&& pattern)

/-- Model of `image.rightShift(start)` at one pixel. -/
def EEImage.rightShift (img : EEImage) (s : Nat) : EEImage :=
  img.mapVals (fun v => v >>> s)

/-- Model of `image.eq(k)` at one pixel: `1` where the value equals `k`, else `0`. -/
def EEImage.eq (img : EEImage) (k : Nat) : EEImage :=
  img.mapVals (fun v => if v = k then 1 else 0)

/-- Model of `image.updateMask(m)` at one pixel: the pixel stays kept exactly
when it was kept, the mask image's pixel is itself kept, and the mask
image's (first-band) value is nonzero.  Band values are untouched. -/
def EEImage.updateMask (img m : EEImage) : EEImage :=
  ⟨img.bands,
   img.mask && m.mask &&
     (match m.bands.head? with
      | some b => b.2 != 0
      | none => false)⟩

/-- The bit pattern computed by `getQABits`:
`pattern = 0; for i in range(start, end): pattern += 2**i`.
Python's `range(start, end)` runs from `start` up to `e - 1`
(empty when `e ≤ start`), which is `List.range' start (e - start)`. -/
def qaPattern (start e : Nat) : Nat :=
  (List.range' start (e - start)).foldl (fun pattern i => pattern + 2 ^ i) 0

/-- Embedding of `getQABits(image, start, end, newName)`: select band `0` renamed to
`newName`, bitwise-and with `qaPattern start e`, right-shift by `start`. -/
def getQABits (image : EEImage) (start e : Nat) (newName : String) : Option EEImage :=
  (image.selectRename 0 newName).map
    (fun im => (im.bitwiseAnd (qaPattern start e)).rightShift start)

/-- Embedding of `maskCloud(image)`: select the `StateQA` band, extract the internal
quality flag bits via `getQABits(QA, 8, 13, 'internal_quality_flag')`,
and update the image mask with `internalQuality.eq(0)`. -/
def maskCloud (image : EEImage) : Option EEImage :=
  let QA := image.selectName "StateQA"
  (getQABits QA 8 13 "internal_quality_flag").map
    (fun internalQuality => image.updateMask (internalQuality.eq 0))

example : qaPattern 8 13 = 7936 := by decide
example : qaPattern 8 14 = 16128 := by decide
example : maskCloud ⟨[("StateQA", 0), ("sur_refl_b01", 7)], true⟩ =
    some ⟨[("StateQA", 0), ("sur_refl_b01", 7)], true⟩ := by decide
example : (maskCloud ⟨[("StateQA", 1024), ("sur_refl_b01", 7)], true⟩).map EEImage.mask =
    some false := by decide

/-- A `pyproj` projection, as built by `create_circular_bb_polygon`.
`wgs84` stands for the string `+proj=longlat +datum=WGS84 +no_defs`;
`aeqd R lat0 lon0` stands for the f-string
`+proj=aeqd +R=<R> +units=m +lat_0=<lat0> +lon_0=<lon0>`. -/
inductive Proj where
  | wgs84 : Proj
  | aeqd (R lat0 lon0 : ℚ) : Proj
deriving DecidableEq, Repr

/-- Symbolic shapely / `ee.Geometry` values built by the module:
`point x y` is `Point(x, y)`; `transformed src dst g` is
`shapely.ops.transform(partial(pyproj.transform, src, dst), g)`;
`buffer g r` is `g.buffer(r)`; `exteriorRing g` is
`mapping(g)['coordinates'][0]`; `polygon ring` is
`ee.Geometry.Polygon(list(ring))`. -/
inductive Geom where
  | point (x y : ℚ) : Geom
  | transformed (src dst : Proj) (g : Geom) : Geom
  | buffer (g : Geom) (radius : ℚ) : Geom
  | exteriorRing (g : Geom) : Geom
  | polygon (ring : Geom) : Geom
deriving DecidableEq, Repr

/-- Embedding of `create_circular_bb_polygon(center, area)` with `center = (lat, lon)`:
build `Point(center[1], center[0])`, project it from WGS84 into the
azimuthal equidistant projection centred at `(point.y, point.x)` on a
sphere of radius `6371000` m, buffer the projected point by
`area * 1000` m, reproject the buffer back to WGS84, and return the
polygon on the buffer's exterior ring. -/
def create_circular_bb_polygon (center : ℚ × ℚ) (area : ℚ) : Geom :=
  let point := Geom.point center.2 center.1
  let local_azimuthal_projection := Proj.aeqd 6371000 center.1 center.2
  let point_transformed := Geom.transformed Proj.wgs84 local_azimuthal_projection point
  let buffer := Geom.buffer point_transformed (area * 1000)
  let buffer_wgs84 := Geom.transformed local_azimuthal_projection Proj.wgs84 buffer
  Geom.polygon (Geom.exteriorRing buffer_wgs84)

mutual

/-- Symbolic `ee.ImageCollection` expressions built by the module.
`mapNorm c mn mx` is
`c.map(lambda image: ((image.subtract(mn)).divide(mx.subtract(mn))).multiply(256).uint8())`;
`mapClipMask c g` is
`c.map(lambda image: image.updateMask(ee.Image.constant(1).clip(g).mask()))`;
`mapMaskCloud c` is `c.map(maskCloud)`; `mapUint8 c` is
`c.map(lambda img: img.uint8())`; `combineOverwrite a b` is
`a.combine(b, overwrite=True)`. -/
inductive ICExpr where
  | base (sat : String) : ICExpr
  | filterDate (c : ICExpr) (start_date end_date : String) : ICExpr
  | filterBounds (c : ICExpr) (g : Geom) : ICExpr
  | select (c : ICExpr) (bands : List String) : ICExpr
  | mapMaskCloud (c : ICExpr) : ICExpr
  | mapClipMask (c : ICExpr) (g : Geom) : ICExpr
  | mapNorm (c : ICExpr) (mn mx : NumExpr) : ICExpr
  | mapUint8 (c : ICExpr) : ICExpr
  | combineOverwrite (a b : ICExpr) : ICExpr

/-- Symbolic `ee.Image` expressions: `collMin c` is `c.min()`,
`collMax c` is `c.max()`. -/
inductive ImgExpr where
  | collMin (c : ICExpr) : ImgExpr
  | collMax (c : ICExpr) : ImgExpr

/-- Symbolic `ee.Number` expressions: `reduceRegionGet img r g mp s b`
is `ee.Number(img.reduceRegion(reducer=r, geometry=g, maxPixels=mp,
scale=s).get(b))`. -/
inductive NumExpr where
  | reduceRegionGet (img : ImgExpr) (reducer : String) (geometry : Geom)
      (maxPixels : ℚ) (scale : Nat) (band : String) : NumExpr

end

/-- Embedding of `norm_band(imgcoll, band, polygon)`: select the band, form the
collection-wide min/max images, reduce each over `polygon` at scale
`500` with `maxPixels = 10e10`, map the normalization lambda over the
selected band, and combine the result back with `overwrite=True`. -/
def norm_band (imgcoll : ICExpr) (band : String) (polygon : Geom) : ICExpr :=
  let colIm := ICExpr.select imgcoll [band]
  let minImage := ImgExpr.collMin colIm
  let maxImage := ImgExpr.collMax colIm
  let maxValue := NumExpr.reduceRegionGet maxImage "max" polygon 100000000000 500 band
  let minValue := NumExpr.reduceRegionGet minImage "min" polygon 100000000000 500 band
  let colIm_norm := ICExpr.mapNorm colIm minValue maxValue
  ICExpr.combineOverwrite imgcoll colIm_norm

/-- The arithmetic performed on one pixel value `x` by the
normalization lambda of `norm_band`, before the trailing `.uint8()`
cast: `((x - mn) / (mx - mn)) * 256`. -/
def normPixel (x mn mx : ℚ) : ℚ :=
  ((x - mn) / (mx - mn)) * 256

/-- Band-level semantics of `a.combine(b, overwrite=True)` (per the
remote API's documented behaviour): the output has the bands of `a`,
with the value of any band also present in `b` taken from `b`, followed
by the bands of `b` that `a` lacks. -/
def combineBands (a b : List (String × ℚ)) : List (String × ℚ) :=
  a.map (fun p =>
    match b.find? (fun q => q.1 == p.1) with
    | some q => (p.1, q.2)
    | none => p) ++
  b.filter (fun q => !(a.any (fun p => p.1 == q.1)))

/-- The record of parameters of an `ee.batch.Export.video.toDrive`
call, as assembled by `create_export_vid_bands_task`. -/
structure ExportTask where
  collection : ICExpr
  description : String
  scale : Nat
  folder : String
  framesPerSecond : Nat
  region : Geom
  crs : String

/-- Embedding of `create_export_vid_bands_task(vid_collection, folder_name, polygon,
vid_name)`: an export task on the uint8-mapped collection, description
`vid_name`, scale `500`, folder `folder_name`, `12` frames per second,
region `polygon` and CRS `EPSG:4326`. -/
def create_export_vid_bands_task (vid_collection : ICExpr) (folder_name : String)
    (polygon : Geom) (vid_name : String) : ExportTask :=
  { collection := ICExpr.mapUint8 vid_collection
    description := vid_name
    scale := 500
    folder := folder_name
    framesPerSecond := 12
    region := polygon
    crs := "EPSG:4326" }

/-- Python `range(0, n, 3)`. -/
def range3 (n : Nat) : List Nat :=
  (List.range ((n + 2) / 3)).map (fun j => 3 * j)

/-- Embedding of `chunks = [bands[x:x+3] for x in range(0, len(bands), 3)]`. -/
def chunksRaw (bands : List String) : List (List String) :=
  (range3 bands.length).map (fun x => (bands.drop x).take 3)

/-- The chunk list after `chunks[-1] = bands[-3:]` (meaningful only for
nonempty `bands`; on an empty list the Python assignment raises
`IndexError`, handled in `create_export_tasks_for_all_bands`). -/
def pyChunks (bands : List String) : List (List String) :=
  (chunksRaw bands).dropLast ++ [bands.drop (bands.length - 3)]

/-- Python `s.replace(c, '')` for a single-character pattern `c`:
remove every occurrence of `c`. -/
def pyReplaceChar (s : String) (c : Char) : String :=
  ⟨s.data.filter (fun x => x != c)⟩

/-- Does the string start with a slash, `s[:1] == '/'`? -/
def startsWithSlash (s : String) : Bool :=
  s.data.head? == some (Char.ofNat 47)

/-- Does the string end with a slash? -/
def endsWithSlash (s : String) : Bool :=
  s.data.getLast? == some (Char.ofNat 47)

/-- Python `os.path.join(a, b)` restricted to the behaviour relevant
here: an absolute second component discards the first; otherwise a `/`
separator is inserted unless the first component is empty or already
ends in `/`. -/
def pathJoin (a b : String) : String :=
  if startsWithSlash b then b
  else if a = "" ∨ endsWithSlash a then a ++ b
  else a ++ "/" ++ b

/-- The raw video name
`'bands:'+str(c[0])+','+str(c[1])+','+str(c[2])+';loc:'+str(loc_id)+';s:'+start_date+';e:'+end_date`;
`none` when the chunk has fewer than three bands (Python `IndexError`). -/
def vidNameRaw (c : List String) (loc_id : Int) (start_date end_date : String) :
    Option String :=
  match c with
  | b0 :: b1 :: b2 :: _ =>
      some ("bands:" ++ b0 ++ "," ++ b1 ++ "," ++ b2 ++ ";loc:" ++ toString loc_id ++
            ";s:" ++ start_date ++ ";e:" ++ end_date)
  | _ => none

/-- The final video name of a three-band chunk: the raw name with every
apostrophe (`U+0027`) and every period removed. -/
def vid_name_of (b0 b1 b2 : String) (loc_id : Int) (start_date end_date : String) : String :=
  pyReplaceChar
    (pyReplaceChar
      ("bands:" ++ b0 ++ "," ++ b1 ++ "," ++ b2 ++ ";loc:" ++ toString loc_id ++
       ";s:" ++ start_date ++ ";e:" ++ end_date)
      (Char.ofNat 39))
    (Char.ofNat 46)

/-- The body of the `for bands_chunk in chunks:` loop of
`create_export_tasks_for_all_bands`: for each chunk select its bands,
build the cleaned video name, and append a new export task exactly when
`os.path.exists(os.path.join('/content/drive/MyDrive/', folder_name,
vid_name+'.mp4'))` is false.  `fs` is the filesystem's existence
predicate. -/
def exportLoop (fs : String → Bool) (imgcoll : ICExpr) (folder_name : String)
    (polygon : Geom) (loc_id : Int) (start_date end_date : String) :
    List (List String) → Option (List ExportTask)
  | [] => some []
  | bands_chunk :: rest => do
      let vid_collection := ICExpr.select imgcoll bands_chunk
      let raw ← vidNameRaw bands_chunk loc_id start_date end_date
      let vid_name := pyReplaceChar (pyReplaceChar raw (Char.ofNat 39)) (Char.ofNat 46)
      let path := pathJoin (pathJoin "/content/drive/MyDrive/" folder_name) (vid_name ++ ".mp4")
      let tasks ← exportLoop fs imgcoll folder_name polygon loc_id start_date end_date rest
      if fs path then
        some tasks
      else
        some (create_export_vid_bands_task vid_collection folder_name polygon vid_name :: tasks)

/-- Embedding of `create_export_tasks_for_all_bands(imgcoll, bands, folder_name,
polygon, loc_id, lat, lon, start_date, end_date)`: chunk the band list
by threes, replace the last chunk with the last three bands, and run
the export loop; `none` models the `IndexError` raised on fewer than
three bands (`chunks[-1]` on an empty chunk list, or `bands_chunk[1]` /
`bands_chunk[2]` on a short chunk).  `lat` and `lon` are accepted and
unused, as in the source. -/
def create_export_tasks_for_all_bands (fs : String → Bool) (imgcoll : ICExpr)
    (bands : List String) (folder_name : String) (polygon : Geom) (loc_id : Int)
    (lat lon : ℚ) (start_date end_date : String) : Option (List ExportTask) :=
  if (chunksRaw bands).isEmpty then none
  else exportLoop fs imgcoll folder_name polygon loc_id start_date end_date (pyChunks bands)

/-- Embedding of `start_task(task)`: calls `task.start()` and sleeps; modelled as
appending the task to a log of started tasks and returning the task. -/
def start_task (log : List ExportTask) (task : ExportTask) : List ExportTask × ExportTask :=
  (log ++ [task], task)

/-- Embedding of `start_multiple_tasks(tasks, n)`: split off the first
`min(n, len(tasks))` tasks, start each of them in order, and return
`(to_be_started_tasks, remaining_tasks)` together with the log of
started tasks. -/
def start_multiple_tasks (tasks : List ExportTask) (n : Nat) :
    List ExportTask × List ExportTask × List ExportTask :=
  let to_be_started_tasks := tasks.take (min n tasks.length)
  let remaining_tasks := tasks.drop (min n tasks.length)
  let log := to_be_started_tasks.foldl (fun lg task => (start_task lg task).1) []
  (to_be_started_tasks, remaining_tasks, log)

/-- The image-collection pipeline built inside the period loop of
`get_loc_satellite_tasks`: the base collection of satellite `sat`
filtered by `[start_date, end_date]` and by the polygon's bounds; then
`maskCloud` mapped over it exactly when `sat == 'MODIS/061/MOD09A1'`;
then every pixel outside the polygon masked; then each band of `bands`
normalized in order; then conversion to uint8. -/
def periodColl (sat : String) (bands : List String) (polygon : Geom)
    (start_date end_date : String) : ICExpr :=
  let imgcoll := ICExpr.filterBounds (ICExpr.filterDate (ICExpr.base sat) start_date end_date) polygon
  let imgcoll := if sat = "MODIS/061/MOD09A1" then ICExpr.mapMaskCloud imgcoll else imgcoll
  let imgcoll := ICExpr.mapClipMask imgcoll polygon
  let imgcoll := bands.foldl (fun acc band => norm_band acc band polygon) imgcoll
  ICExpr.mapUint8 imgcoll

/-- The `for i in range(len(start_dates)):` loop of
`get_loc_satellite_tasks`: for each period build the pipeline and
append its export tasks; `none` models the `IndexError` raised when
`end_dates` runs out before `start_dates`.  The `os.mkdir` side effect
has no bearing on the returned tasks and is not modelled. -/
def loopPeriods (fs : String → Bool) (sat : String) (bands : List String)
    (loc_id : Int) (folder_name : String) (polygon : Geom) (lat lon : ℚ) :
    List String → List String → Option (List ExportTask)
  | [], _ => some []
  | _ :: _, [] => none
  | start_date :: sds, end_date :: eds => do
      let imgcoll := periodColl sat bands polygon start_date end_date
      let tasks ← create_export_tasks_for_all_bands fs imgcoll bands folder_name polygon
        loc_id lat lon start_date end_date
      let rest ← loopPeriods fs sat bands loc_id folder_name polygon lat lon sds eds
      some (tasks ++ rest)

/-- The default of the `polygon_area` parameter declared by
`get_loc_satellite_tasks` (`polygon_area=100`). -/
def get_loc_satellite_tasks_polygon_area_default : ℚ := 100

/-- Embedding of `get_loc_satellite_tasks(sat, bands, start_dates, end_dates,
loc_id, folder_name, latitude, longitude, polygon_area)`: build the
circular polygon around the centre and collect the export tasks of all
periods in order. -/
def get_loc_satellite_tasks (fs : String → Bool) (sat : String) (bands : List String)
    (start_dates end_dates : List String) (loc_id : Int) (folder_name : String)
    (latitude longitude : ℚ) (polygon_area : ℚ) : Option (List ExportTask) :=
  let polygon := create_circular_bb_polygon (latitude, longitude) polygon_area
  loopPeriods fs sat bands loc_id folder_name polygon latitude longitude start_dates end_dates

/-- The default of the `polygon_area` parameter declared by
`get_loc_tasks` (`polygon_area=50`). -/
def get_loc_tasks_polygon_area_default : ℚ := 50

/-- Embedding of `get_loc_tasks(latitude, longitude, year, loc_id, sat, folder_name,
bands, polygon_area)`: one period from `str(int(year)) + '-04-01'` to
`str(int(year)) + '-09-30'`, delegated to `get_loc_satellite_tasks`
with singleton date lists. -/
def get_loc_tasks (fs : String → Bool) (latitude longitude : ℚ) (year : Int)
    (loc_id : Int) (sat folder_name : String) (bands : List String)
    (polygon_area : ℚ) : Option (List ExportTask) :=
  let start_date := toString year ++ "-04-01"
  let end_date := toString year ++ "-09-30"
  get_loc_satellite_tasks fs sat bands [start_date] [end_date] loc_id folder_name
    latitude longitude polygon_area

mutual

/-- Does a collection expression contain a `mapMaskCloud` node? -/
def ICExpr.hasMaskCloud : ICExpr → Bool
  | .base _ => false
  | .filterDate c _ _ => c.hasMaskCloud
  | .filterBounds c _ => c.hasMaskCloud
  | .select c _ => c.hasMaskCloud
  | .mapMaskCloud _ => true
  | .mapClipMask c _ => c.hasMaskCloud
  | .mapNorm c mn mx => c.hasMaskCloud || mn.hasMaskCloud || mx.hasMaskCloud
  | .mapUint8 c => c.hasMaskCloud
  | .combineOverwrite a b => a.hasMaskCloud || b.hasMaskCloud

/-- Does an image expression contain a `mapMaskCloud` node? -/
def ImgExpr.hasMaskCloud : ImgExpr → Bool
  | .collMin c => c.hasMaskCloud
  | .collMax c => c.hasMaskCloud

/-- Does a number expression contain a `mapMaskCloud` node? -/
def NumExpr.hasMaskCloud : NumExpr → Bool
  | .reduceRegionGet img _ _ _ _ _ => img.hasMaskCloud

end

/-! ### Helper lemmas -/

lemma foldl_two_pow (n : Nat) : ∀ s a : Nat,
    (List.range' s n).foldl (fun acc i => acc + 2 ^ i) a = a + (2 ^ (s + n) - 2 ^ s) := by
  induction n with
  | zero => intro s a; simp
  | succ m ih =>
      intro s a
      rw [List.range'_succ, List.foldl_cons, ih (s + 1) (a + 2 ^ s)]
      have h1 : 2 ^ (s + 1) ≤ 2 ^ (s + 1 + m) := Nat.pow_le_pow_right (by omega) (by omega)
      have h2 : 2 ^ (s + 1) = 2 * 2 ^ s := by rw [pow_succ]; ring
      have h3 : s + 1 + m = s + (m + 1) := by omega
      rw [h3] at h1
      rw [h3]
      omega

lemma qaPattern_eq_sub (s e : Nat) (h : s ≤ e) : qaPattern s e = 2 ^ e - 2 ^ s := by
  unfold qaPattern
  rw [foldl_two_pow]
  have : s + (e - s) = e := by omega
  rw [this, Nat.zero_add]

lemma qaPattern_testBit (s e i : Nat) (h : s ≤ e) :
    (qaPattern s e).testBit i = (decide (s ≤ i) && decide (i < e)) := by
  rw [qaPattern_eq_sub s e h]
  have hfac : 2 ^ e - 2 ^ s = 2 ^ s * (2 ^ (e - s) - 1) := by
    rw [Nat.mul_sub_left_distrib, Nat.mul_one, ← pow_add]
    congr 2
    omega
  rw [hfac, Nat.testBit_mul_pow_two, Nat.testBit_two_pow_sub_one]
  by_cases hsi : s ≤ i
  · have : i ≥ s := hsi
    simp only [this, decide_True, Bool.true_and, hsi]
    exact decide_eq_decide.mpr (by omega)
  · have : ¬ i ≥ s := hsi
    simp [this, hsi]

lemma chunksRaw_eq (bands : List String) :
    chunksRaw bands = (List.range ((bands.length + 2) / 3)).map
      (fun j => (bands.drop (3 * j)).take 3) := by
  unfold chunksRaw range3
  rw [List.map_map]
  rfl

lemma dropLast_chunksRaw (bands : List String) (h : 1 ≤ (bands.length + 2) / 3) :
    (chunksRaw bands).dropLast =
      (List.range ((bands.length + 2) / 3 - 1)).map
        (fun j => (bands.drop (3 * j)).take 3) := by
  rw [chunksRaw_eq]
  have hk : (bands.length + 2) / 3 = ((bands.length + 2) / 3 - 1) + 1 := by omega
  rw [hk, List.range_succ, List.map_append]
  simp only [List.map_cons, List.map_nil, List.dropLast_concat]
  congr 2

lemma pyChunks_length_three (bands : List String) (h : 3 ≤ bands.length) :
    ∀ c ∈ pyChunks bands, c.length = 3 := by
  intro c hc
  have hdiv := Nat.div_add_mod (bands.length + 2) 3
  have hmod : (bands.length + 2) % 3 < 3 := Nat.mod_lt _ (by omega)
  have hk1 : 1 ≤ (bands.length + 2) / 3 := by omega
  rw [pyChunks, dropLast_chunksRaw bands hk1] at hc
  rcases List.mem_append.mp hc with hl | hr
  · rcases List.mem_map.mp hl with ⟨j, hj, rfl⟩
    have hjlt : j < (bands.length + 2) / 3 - 1 := List.mem_range.mp hj
    rw [List.length_take, List.length_drop]
    omega
  · rw [List.mem_singleton.mp hr, List.length_drop]
    omega

lemma pyChunks_cover (bands : List String) (h : 3 ≤ bands.length) :
    ∀ b ∈ bands, ∃ c ∈ pyChunks bands, b ∈ c := by
  intro b hb
  rcases List.mem_iff_getElem?.mp hb with ⟨i, hi⟩
  have hilen : i < bands.length := by
    by_contra hge
    rw [List.getElem?_eq_none (by omega)] at hi
    cases hi
  by_cases hlast : bands.length - 3 ≤ i
  · refine ⟨bands.drop (bands.length - 3), ?_, ?_⟩
    · rw [pyChunks]
      exact List.mem_append_right _ (by simp)
    · refine List.mem_iff_getElem?.mpr ⟨i - (bands.length - 3), ?_⟩
      rw [List.getElem?_drop,
        show bands.length - 3 + (i - (bands.length - 3)) = i from by omega]
      exact hi
  · have hdiv := Nat.div_add_mod (bands.length + 2) 3
    have hmod : (bands.length + 2) % 3 < 3 := Nat.mod_lt _ (by omega)
    have hidiv := Nat.div_add_mod i 3
    have himod : i % 3 < 3 := Nat.mod_lt _ (by omega)
    have hk1 : 1 ≤ (bands.length + 2) / 3 := by omega
    refine ⟨(bands.drop (3 * (i / 3))).take 3, ?_, ?_⟩
    · rw [pyChunks, dropLast_chunksRaw bands hk1]
      refine List.mem_append_left _
        (List.mem_map.mpr ⟨i / 3, List.mem_range.mpr ?_, rfl⟩)
      omega
    · refine List.mem_iff_getElem?.mpr ⟨i % 3, ?_⟩
      rw [List.getElem?_take_of_lt himod, List.getElem?_drop,
        show 3 * (i / 3) + i % 3 = i from by omega]
      exact hi

lemma data_ne_nil (s : String) (h : s ≠ "") : s.data ≠ [] := by
  intro hd
  exact h (String.ext hd)

lemma endsWithSlash_append (a b : String) (hb : b ≠ "") :
    endsWithSlash (a ++ b) = endsWithSlash b := by
  unfold endsWithSlash
  rw [String.data_append, List.getLast?_append]
  rcases hl : b.data.getLast? with _ | c
  · exact absurd (List.getLast?_eq_none_iff.mp hl) (data_ne_nil b hb)
  · rfl

lemma append_ne_empty (a b : String) (hb : b ≠ "") : a ++ b ≠ "" := by
  intro h
  have hdata := String.data_eq_of_eq h
  rw [String.data_append] at hdata
  exact data_ne_nil b hb (List.append_eq_nil.mp hdata).2

lemma vid_name_data_head (b0 b1 b2 : String) (loc_id : Int) (sd ed : String) :
    ∃ t, (vid_name_of b0 b1 b2 loc_id sd ed).data = 'b' :: t := by
  unfold vid_name_of pyReplaceChar
  simp only [String.data_append, List.append_assoc, List.cons_append]
  rw [List.filter_cons, show (('b' != Char.ofNat 39) : Bool) = true from rfl]
  simp only [if_true]
  rw [List.filter_cons, show (('b' != Char.ofNat 46) : Bool) = true from rfl]
  simp only [if_true]
  exact ⟨_, rfl⟩

lemma startsWithSlash_vid (b0 b1 b2 : String) (loc_id : Int) (sd ed suffix : String) :
    startsWithSlash (vid_name_of b0 b1 b2 loc_id sd ed ++ suffix) = false := by
  obtain ⟨t, ht⟩ := vid_name_data_head b0 b1 b2 loc_id sd ed
  unfold startsWithSlash
  rw [String.data_append, ht]
  rfl

lemma pathJoin_drive (folder vid : String) (h0 : folder ≠ "")
    (h1 : startsWithSlash folder = false) (h2 : endsWithSlash folder = false)
    (hv : startsWithSlash vid = false) :
    pathJoin (pathJoin "/content/drive/MyDrive/" folder) vid =
      "/content/drive/MyDrive/" ++ folder ++ "/" ++ vid := by
  have e1 : pathJoin "/content/drive/MyDrive/" folder = "/content/drive/MyDrive/" ++ folder := by
    unfold pathJoin
    rw [h1]
    simp only [Bool.false_eq_true, if_false]
    rw [if_pos (Or.inr (show endsWithSlash "/content/drive/MyDrive/" = true from rfl))]
  rw [e1]
  unfold pathJoin
  rw [hv]
  simp only [Bool.false_eq_true, if_false]
  rw [if_neg ?_]
  rintro (he | hs)
  · exact append_ne_empty _ folder h0 he
  · rw [endsWithSlash_append _ folder h0, h2] at hs
    cases hs

/-- The per-chunk step of the export loop, as a function suitable for
`List.filterMap`: build the cleaned video name of the chunk's three
bands and keep a new export task exactly when the output file
`/content/drive/MyDrive/<folder_name>/<vid_name>.mp4` does not yet
exist on the filesystem `fs`. -/
def chunkTask (fs : String → Bool) (imgcoll : ICExpr) (folder_name : String)
    (polygon : Geom) (loc_id : Int) (sd ed : String) (c : List String) :
    Option ExportTask :=
  match c with
  | b0 :: b1 :: b2 :: _ =>
      if fs ("/content/drive/MyDrive/" ++ folder_name ++ "/" ++
          vid_name_of b0 b1 b2 loc_id sd ed ++ ".mp4") then none
      else some (create_export_vid_bands_task (ICExpr.select imgcoll c) folder_name
        polygon (vid_name_of b0 b1 b2 loc_id sd ed))
  | _ => none

lemma exportLoop_eq (fs : String → Bool) (imgcoll : ICExpr) (folder_name : String)
    (polygon : Geom) (loc_id : Int) (sd ed : String) (h0 : folder_name ≠ "")
    (h1 : startsWithSlash folder_name = false) (h2 : endsWithSlash folder_name = false) :
    ∀ chunks : List (List String), (∀ c ∈ chunks, c.length = 3) →
      exportLoop fs imgcoll folder_name polygon loc_id sd ed chunks =
        some (chunks.filterMap (chunkTask fs imgcoll folder_name polygon loc_id sd ed)) := by
  intro chunks
  induction chunks with
  | nil => intro _; rfl
  | cons c rest ih =>
      intro hc
      obtain ⟨b0, b1, b2, rfl⟩ := List.length_eq_three.mp (hc c (List.mem_cons_self c rest))
      have hrest := ih (fun d hd => hc d (List.mem_cons_of_mem _ hd))
      have hstep : exportLoop fs imgcoll folder_name polygon loc_id sd ed ([b0, b1, b2] :: rest) =
          (exportLoop fs imgcoll folder_name polygon loc_id sd ed rest).bind (fun tasks =>
            if fs (pathJoin (pathJoin "/content/drive/MyDrive/" folder_name)
                (vid_name_of b0 b1 b2 loc_id sd ed ++ ".mp4")) then some tasks
            else some (create_export_vid_bands_task (ICExpr.select imgcoll [b0, b1, b2])
              folder_name polygon (vid_name_of b0 b1 b2 loc_id sd ed) :: tasks)) := rfl
      rw [hstep, hrest, pathJoin_drive folder_name _ h0 h1 h2
        (startsWithSlash_vid b0 b1 b2 loc_id sd ed ".mp4")]
      rw [List.filterMap_cons]
      have hpath : "/content/drive/MyDrive/" ++ folder_name ++ "/" ++
          (vid_name_of b0 b1 b2 loc_id sd ed ++ ".mp4") =
          "/content/drive/MyDrive/" ++ folder_name ++ "/" ++
          vid_name_of b0 b1 b2 loc_id sd ed ++ ".mp4" :=
        (String.append_assoc _ _ _).symm
      rw [hpath]
      by_cases hfs : fs ("/content/drive/MyDrive/" ++ folder_name ++ "/" ++
          vid_name_of b0 b1 b2 loc_id sd ed ++ ".mp4")
      · simp only [hfs, if_true, chunkTask, Option.some_bind]
      · simp only [hfs, if_false, chunkTask, Option.some_bind, Bool.false_eq_true]

lemma chunksRaw_isEmpty_false (bands : List String) (h : 1 ≤ bands.length) :
    (chunksRaw bands).isEmpty = false := by
  rw [chunksRaw_eq]
  have hk : 1 ≤ (bands.length + 2) / 3 := by
    have := Nat.div_add_mod (bands.length + 2) 3
    have := Nat.mod_lt (bands.length + 2) (show 0 < 3 from by omega)
    omega
  rcases hr : List.range ((bands.length + 2) / 3) with _ | ⟨x, xs⟩
  · have := List.range_eq_nil.mp hr
    omega
  · rfl

lemma create_export_eq (fs : String → Bool) (imgcoll : ICExpr) (bands : List String)
    (folder_name : String) (polygon : Geom) (loc_id : Int) (lat lon : ℚ) (sd ed : String)
    (h : 3 ≤ bands.length) (h0 : folder_name ≠ "")
    (h1 : startsWithSlash folder_name = false) (h2 : endsWithSlash folder_name = false) :
    create_export_tasks_for_all_bands fs imgcoll bands folder_name polygon loc_id lat lon sd ed =
      some ((pyChunks bands).filterMap
        (chunkTask fs imgcoll folder_name polygon loc_id sd ed)) := by
  rw [create_export_tasks_for_all_bands, chunksRaw_isEmpty_false bands (by omega)]
  simp only [Bool.false_eq_true, if_false]
  exact exportLoop_eq fs imgcoll folder_name polygon loc_id sd ed h0 h1 h2
    (pyChunks bands) (pyChunks_length_three bands h)

lemma exportLoop_isSome (fs : String → Bool) (imgcoll : ICExpr) (folder_name : String)
    (polygon : Geom) (loc_id : Int) (sd ed : String) :
    ∀ chunks : List (List String), (∀ c ∈ chunks, c.length = 3) →
      ∃ ts, exportLoop fs imgcoll folder_name polygon loc_id sd ed chunks = some ts := by
  intro chunks
  induction chunks with
  | nil => intro _; exact ⟨[], rfl⟩
  | cons c rest ih =>
      intro hc
      obtain ⟨b0, b1, b2, rfl⟩ := List.length_eq_three.mp (hc c (List.mem_cons_self c rest))
      obtain ⟨ts, hts⟩ := ih (fun d hd => hc d (List.mem_cons_of_mem _ hd))
      have hstep : exportLoop fs imgcoll folder_name polygon loc_id sd ed ([b0, b1, b2] :: rest) =
          (exportLoop fs imgcoll folder_name polygon loc_id sd ed rest).bind (fun tasks =>
            if fs (pathJoin (pathJoin "/content/drive/MyDrive/" folder_name)
                (vid_name_of b0 b1 b2 loc_id sd ed ++ ".mp4")) then some tasks
            else some (create_export_vid_bands_task (ICExpr.select imgcoll [b0, b1, b2])
              folder_name polygon (vid_name_of b0 b1 b2 loc_id sd ed) :: tasks)) := rfl
      rw [hstep, hts]
      by_cases hfs : fs (pathJoin (pathJoin "/content/drive/MyDrive/" folder_name)
          (vid_name_of b0 b1 b2 loc_id sd ed ++ ".mp4"))
      · exact ⟨ts, by simp [hfs]⟩
      · exact ⟨create_export_vid_bands_task (ICExpr.select imgcoll [b0, b1, b2])
          folder_name polygon (vid_name_of b0 b1 b2 loc_id sd ed) :: ts, by simp [hfs]⟩

lemma create_export_isSome (fs : String → Bool) (imgcoll : ICExpr) (bands : List String)
    (folder_name : String) (polygon : Geom) (loc_id : Int) (lat lon : ℚ) (sd ed : String)
    (h : 3 ≤ bands.length) :
    ∃ ts, create_export_tasks_for_all_bands fs imgcoll bands folder_name polygon loc_id
      lat lon sd ed = some ts := by
  rw [create_export_tasks_for_all_bands, chunksRaw_isEmpty_false bands (by omega)]
  simp only [Bool.false_eq_true, if_false]
  exact exportLoop_isSome fs imgcoll folder_name polygon loc_id sd ed
    (pyChunks bands) (pyChunks_length_three bands h)

/-- The task list contributed by one period of
`get_loc_satellite_tasks` (defined for band lists of length at least
three, where `create_export_tasks_for_all_bands` succeeds). -/
def periodTasks (fs : String → Bool) (sat : String) (bands : List String) (loc_id : Int)
    (folder_name : String) (polygon : Geom) (lat lon : ℚ) (sd ed : String) :
    List ExportTask :=
  (create_export_tasks_for_all_bands fs (periodColl sat bands polygon sd ed) bands
    folder_name polygon loc_id lat lon sd ed).getD []

lemma loopPeriods_eq (fs : String → Bool) (sat : String) (bands : List String)
    (loc_id : Int) (folder_name : String) (polygon : Geom) (lat lon : ℚ)
    (h3 : 3 ≤ bands.length) :
    ∀ sds eds : List String, sds.length ≤ eds.length →
      loopPeriods fs sat bands loc_id folder_name polygon lat lon sds eds =
        some (((sds.zip eds).map (fun p =>
          periodTasks fs sat bands loc_id folder_name polygon lat lon p.1 p.2)).flatten) := by
  intro sds
  induction sds with
  | nil => intro eds _; rfl
  | cons sd sds ih =>
      intro eds hlen
      rcases eds with _ | ⟨ed, eds⟩
      · simp at hlen
      · obtain ⟨ts, hts⟩ := create_export_isSome fs (periodColl sat bands polygon sd ed)
          bands folder_name polygon loc_id lat lon sd ed h3
        have hstep : loopPeriods fs sat bands loc_id folder_name polygon lat lon
            (sd :: sds) (ed :: eds) =
            (create_export_tasks_for_all_bands fs (periodColl sat bands polygon sd ed) bands
              folder_name polygon loc_id lat lon sd ed).bind (fun tasks =>
                (loopPeriods fs sat bands loc_id folder_name polygon lat lon sds eds).bind
                  (fun rest => some (tasks ++ rest))) := rfl
        have hlen2 : sds.length ≤ eds.length := by
          simp only [List.length_cons] at hlen
          omega
        rw [hstep, hts, ih eds hlen2]
        have hpt : periodTasks fs sat bands loc_id folder_name polygon lat lon sd ed = ts := by
          rw [periodTasks, hts]
          rfl
        simp only [Option.some_bind, List.zip_cons_cons, List.map_cons, List.flatten_cons, hpt]

lemma norm_band_hasMaskCloud (c : ICExpr) (band : String) (polygon : Geom) :
    (norm_band c band polygon).hasMaskCloud = c.hasMaskCloud := by
  simp [norm_band, ICExpr.hasMaskCloud, ImgExpr.hasMaskCloud, NumExpr.hasMaskCloud]

lemma foldl_norm_hasMaskCloud (bands : List String) (polygon : Geom) :
    ∀ c : ICExpr,
      (bands.foldl (fun acc band => norm_band acc band polygon) c).hasMaskCloud =
        c.hasMaskCloud := by
  induction bands with
  | nil => intro c; rfl
  | cons b bs ih =>
      intro c
      rw [List.foldl_cons, ih (norm_band c b polygon), norm_band_hasMaskCloud]

lemma periodColl_hasMaskCloud (sat : String) (bands : List String) (polygon : Geom)
    (sd ed : String) :
    (periodColl sat bands polygon sd ed).hasMaskCloud = decide (sat = "MODIS/061/MOD09A1") := by
  unfold periodColl
  simp only [ICExpr.hasMaskCloud, foldl_norm_hasMaskCloud]
  by_cases hsat : sat = "MODIS/061/MOD09A1" <;>
    simp [hsat, ICExpr.hasMaskCloud]

/-! ### Claims -/

/-- C2, counterexample.  The claim asserts that for `0 ≤ start ≤ end`
the computed pattern has exactly the bits `start` through `end`
(inclusive) set, i.e. `pattern = Σ 2^i, i = start..end`.  At
`start = 8`, `end = 13` the code's pattern is `7936` — bits `8`
through `12` only — not `16128`, and bit `13` is clear. -/
theorem C2_counterexample :
    qaPattern 8 13 ≠ 2 ^ 8 + 2 ^ 9 + 2 ^ 10 + 2 ^ 11 + 2 ^ 12 + 2 ^ 13 ∧
    (qaPattern 8 13).testBit 13 = false ∧
    qaPattern 8 13 = 7936 := by decide

/-- C2, amended.  For all `start ≤ end`, the pattern computed by
`getQABits` (via Python's half-open `range(start, end)`) has exactly
the bits `start` through `end - 1` set — `end` itself excluded — and
the returned expression selects band `0` renamed to `newName`,
bitwise-ANDs it with that pattern, and right-shifts the result by
`start`. -/
theorem C2_getQABits_pattern (start e : Nat) (h : start ≤ e) :
    (∀ i, (qaPattern start e).testBit i = (decide (start ≤ i) && decide (i < e))) ∧
    (∀ (image : EEImage) (newName : String) (b : String × Nat),
      image.bands[0]? = some b →
      getQABits image start e newName =
        some ⟨[(newName, (b.2 &&& qaPattern start e) >>> start)], image.mask⟩) := by
  constructor
  · intro i
    exact qaPattern_testBit start e i h
  · intro image newName b hb
    simp [getQABits, EEImage.selectRename, hb, EEImage.bitwiseAnd, EEImage.rightShift,
      EEImage.mapVals]

/-- C2, witness of the amended theorem at `start = 2`, `end = 5`,
bit `3`, and a one-band image with value `12`. -/
theorem C2_getQABits_pattern_witness :
    (qaPattern 2 5).testBit 3 = (decide (2 ≤ 3) && decide (3 < 5)) ∧
    getQABits ⟨[("QA", 12)], true⟩ 2 5 "flag" =
      some ⟨[("flag", (12 &&& qaPattern 2 5) >>> 2)], true⟩ :=
  ⟨(C2_getQABits_pattern 2 5 (by decide)).1 3,
   (C2_getQABits_pattern 2 5 (by decide)).2 ⟨[("QA", 12)], true⟩ "flag" ("QA", 12) rfl⟩

/-- C3.  `maskCloud` selects the `StateQA` band, extracts the internal
quality flag via `getQABits(QA, 8, 13, 'internal_quality_flag')`, and
updates the mask so that (among pixels kept by the input) exactly the
pixels whose extracted QA bits equal zero are kept and pixels with
nonzero extracted bits are masked out; band data is unaltered. -/
theorem C3_maskCloud (image : EEImage) (v : Nat)
    (hQA : image.bands.filter (fun b => b.1 == "StateQA") = [("StateQA", v)])
    (hm : image.mask = true) :
    (maskCloud image =
      (getQABits (image.selectName "StateQA") 8 13 "internal_quality_flag").map
        (fun internalQuality => image.updateMask (internalQuality.eq 0))) ∧
    ∃ res, maskCloud image = some res ∧
      res.bands = image.bands ∧
      (res.mask = true ↔ (v &&& qaPattern 8 13) >>> 8 = 0) := by
  refine ⟨rfl, ?_⟩
  simp only [maskCloud, getQABits, EEImage.selectName, hQA, EEImage.selectRename,
    EEImage.bitwiseAnd, EEImage.rightShift, EEImage.eq, EEImage.mapVals, EEImage.updateMask,
    List.get?, List.map, List.head?, Option.map_some', hm]
  refine ⟨_, rfl, rfl, ?_⟩
  by_cases hz : (v &&& qaPattern 8 13) >>> 8 = 0 <;> simp [hz]

/-- C3, witness: a pixel with `StateQA = 1 <<< 8` (extracted bits
nonzero) on an otherwise clean image. -/
theorem C3_maskCloud_witness :
    (maskCloud ⟨[("StateQA", 256), ("B1", 9)], true⟩ =
      (getQABits ((⟨[("StateQA", 256), ("B1", 9)], true⟩ : EEImage).selectName "StateQA")
          8 13 "internal_quality_flag").map
        (fun internalQuality =>
          (⟨[("StateQA", 256), ("B1", 9)], true⟩ : EEImage).updateMask
            (internalQuality.eq 0))) ∧
    ∃ res, maskCloud ⟨[("StateQA", 256), ("B1", 9)], true⟩ = some res ∧
      res.bands = [("StateQA", 256), ("B1", 9)] ∧
      (res.mask = true ↔ (256 &&& qaPattern 8 13) >>> 8 = 0) :=
  C3_maskCloud ⟨[("StateQA", 256), ("B1", 9)], true⟩ 256 (by decide) rfl

/-- C4.  `create_circular_bb_polygon((lat, lon), a)` builds the point
`(lon, lat)`, projects it from WGS84 into the azimuthal equidistant
projection centred at that same point on a sphere of radius `6371000`
m, buffers the projected point by the planar radius `a * 1000` m,
reprojects the buffer back to WGS84, and returns the polygon on the
exterior ring of the reprojected buffer. -/
theorem C4_create_circular_bb_polygon (latitude longitude a : ℚ) (ha : 0 < a) :
    create_circular_bb_polygon (latitude, longitude) a =
      Geom.polygon (Geom.exteriorRing
        (Geom.transformed (Proj.aeqd 6371000 latitude longitude) Proj.wgs84
          (Geom.buffer
            (Geom.transformed Proj.wgs84 (Proj.aeqd 6371000 latitude longitude)
              (Geom.point longitude latitude))
            (a * 1000)))) := rfl

/-- C4, witness at centre `(30, 31)` and area parameter `50`. -/
theorem C4_create_circular_bb_polygon_witness :
    create_circular_bb_polygon (30, 31) 50 =
      Geom.polygon (Geom.exteriorRing
        (Geom.transformed (Proj.aeqd 6371000 30 31) Proj.wgs84
          (Geom.buffer
            (Geom.transformed Proj.wgs84 (Proj.aeqd 6371000 30 31)
              (Geom.point 31 30))
            (50 * 1000)))) :=
  C4_create_circular_bb_polygon 30 31 50 (by norm_num)

/-- C6.  `start_multiple_tasks(tasks, n)` returns
`(tasks[:min(n, len(tasks))], tasks[min(n, len(tasks)):])`; the first
list has length `min n (len tasks)`, exactly the first list's tasks are
started (the start log equals it), and the two lists concatenate back
to the input. -/
theorem C6_start_multiple_tasks (tasks : List ExportTask) (n : Nat) :
    (start_multiple_tasks tasks n).1 = tasks.take (min n tasks.length) ∧
    (start_multiple_tasks tasks n).2.1 = tasks.drop (min n tasks.length) ∧
    (start_multiple_tasks tasks n).1.length = min n tasks.length ∧
    (start_multiple_tasks tasks n).2.2 = (start_multiple_tasks tasks n).1 ∧
    (start_multiple_tasks tasks n).1 ++ (start_multiple_tasks tasks n).2.1 = tasks := by
  have hlog : ∀ (l acc : List ExportTask),
      l.foldl (fun lg task => (start_task lg task).1) acc = acc ++ l := by
    intro l
    induction l with
    | nil => intro acc; simp
    | cons t ts ih =>
        intro acc
        rw [List.foldl_cons, ih]
        simp [start_task]
  refine ⟨rfl, rfl, ?_, ?_, ?_⟩
  · simp only [start_multiple_tasks, List.length_take]
    omega
  · simp [start_multiple_tasks, hlog]
  · simp [start_multiple_tasks]

/-- C10.  `get_loc_tasks` requests exactly one time window, from
`str(int(year)) + '-04-01'` to `str(int(year)) + '-09-30'`, by calling
`get_loc_satellite_tasks` with singleton date lists and all other
arguments forwarded unchanged, returning that call's task list; its
declared `polygon_area` default is `50`, unlike the default `100`
declared by `get_loc_satellite_tasks`. -/
theorem C10_get_loc_tasks (fs : String → Bool) (latitude longitude : ℚ) (year loc_id : Int)
    (sat folder_name : String) (bands : List String) (polygon_area : ℚ) :
    get_loc_tasks fs latitude longitude year loc_id sat folder_name bands polygon_area =
      get_loc_satellite_tasks fs sat bands
        [toString year ++ "-04-01"] [toString year ++ "-09-30"]
        loc_id folder_name latitude longitude polygon_area ∧
    get_loc_tasks_polygon_area_default = 50 ∧
    get_loc_satellite_tasks_polygon_area_default = 100 ∧
    get_loc_tasks_polygon_area_default ≠ get_loc_satellite_tasks_polygon_area_default := by
  refine ⟨rfl, rfl, rfl, ?_⟩
  rw [get_loc_tasks_polygon_area_default, get_loc_satellite_tasks_polygon_area_default]
  norm_num

/-- C1.  For every processed bands chunk, the video name is built from
the chunk's three band names, `loc_id`, `start_date` and `end_date`
with every apostrophe and every period removed, and a new export task
for the chunk is created and appended to the returned list if and only
if `/content/drive/MyDrive/<folder_name>/<vid_name>.mp4` does not
already exist; a chunk whose output file exists contributes no task.
(Stated for well-formed folder names: nonempty, no leading or trailing
slash, as `os.path.join` would produce a different path otherwise.) -/
theorem C1_export_tasks (fs : String → Bool) (imgcoll : ICExpr) (bands : List String)
    (folder_name : String) (polygon : Geom) (loc_id : Int) (lat lon : ℚ)
    (start_date end_date : String) (h : 3 ≤ bands.length) (h0 : folder_name ≠ "")
    (h1 : startsWithSlash folder_name = false) (h2 : endsWithSlash folder_name = false) :
    create_export_tasks_for_all_bands fs imgcoll bands folder_name polygon loc_id lat lon
        start_date end_date =
      some ((pyChunks bands).filterMap (fun c =>
        match c with
        | b0 :: b1 :: b2 :: _ =>
            if fs ("/content/drive/MyDrive/" ++ folder_name ++ "/" ++
                vid_name_of b0 b1 b2 loc_id start_date end_date ++ ".mp4") then none
            else some (create_export_vid_bands_task (ICExpr.select imgcoll c) folder_name
              polygon (vid_name_of b0 b1 b2 loc_id start_date end_date))
        | _ => none)) ∧
    ∀ b0 b1 b2 : String,
      (vid_name_of b0 b1 b2 loc_id start_date end_date).data =
        ("bands:" ++ b0 ++ "," ++ b1 ++ "," ++ b2 ++ ";loc:" ++ toString loc_id ++
          ";s:" ++ start_date ++ ";e:" ++ end_date).data.filter
            (fun ch => ch != Char.ofNat 39 && ch != Char.ofNat 46) := by
  constructor
  · exact create_export_eq fs imgcoll bands folder_name polygon loc_id lat lon
      start_date end_date h h0 h1 h2
  · intro b0 b1 b2
    show ((("bands:" ++ b0 ++ "," ++ b1 ++ "," ++ b2 ++ ";loc:" ++ toString loc_id ++
        ";s:" ++ start_date ++ ";e:" ++ end_date).data.filter
          (fun x => x != Char.ofNat 39)).filter (fun x => x != Char.ofNat 46)) = _
    rw [List.filter_filter]
    apply List.filter_congr
    intro ch _
    exact Bool.and_comm _ _

/-- C1, witness: three bands, an empty filesystem, and then a
filesystem on which the single output file exists. -/
theorem C1_export_tasks_witness :
    create_export_tasks_for_all_bands (fun _ => false) (ICExpr.base "M")
        ["B.1", "B.2", "B3"] "sat" (Geom.point 0 0) 7 0 0 "2020-04-01" "2020-09-30" =
      some ((pyChunks ["B.1", "B.2", "B3"]).filterMap (fun c =>
        match c with
        | b0 :: b1 :: b2 :: _ =>
            if (fun _ => false : String → Bool) ("/content/drive/MyDrive/" ++ "sat" ++ "/" ++
                vid_name_of b0 b1 b2 7 "2020-04-01" "2020-09-30" ++ ".mp4") then none
            else some (create_export_vid_bands_task (ICExpr.select (ICExpr.base "M") c) "sat"
              (Geom.point 0 0) (vid_name_of b0 b1 b2 7 "2020-04-01" "2020-09-30"))
        | _ => none)) :=
  (C1_export_tasks (fun _ => false) (ICExpr.base "M") ["B.1", "B.2", "B3"] "sat"
    (Geom.point 0 0) 7 0 0 "2020-04-01" "2020-09-30"
    (by decide) (by decide) (by decide) (by decide)).1

/-- C5.  `create_export_tasks_for_all_bands` splits the bands list
into consecutive chunks of three and replaces the last chunk with the
final three bands, so that for a bands list of length at least three
every chunk has exactly three elements and every band appears in at
least one chunk. -/
theorem C5_chunking (bands : List String) (h : 3 ≤ bands.length) :
    chunksRaw bands =
      (List.range ((bands.length + 2) / 3)).map (fun j => (bands.drop (3 * j)).take 3) ∧
    pyChunks bands = (chunksRaw bands).dropLast ++ [bands.drop (bands.length - 3)] ∧
    (∀ c ∈ pyChunks bands, c.length = 3) ∧
    (∀ b ∈ bands, ∃ c ∈ pyChunks bands, b ∈ c) :=
  ⟨chunksRaw_eq bands, rfl, pyChunks_length_three bands h, pyChunks_cover bands h⟩

/-- C5, witness on a five-band list: the chunk `["c","d","e"]` has
three elements and the band `"d"` is covered. -/
theorem C5_chunking_witness :
    (["c", "d", "e"] : List String).length = 3 ∧
    ∃ c ∈ pyChunks ["a", "b", "c", "d", "e"], "d" ∈ c :=
  ⟨(C5_chunking ["a", "b", "c", "d", "e"] (by decide)).2.2.1 ["c", "d", "e"] (by decide),
   (C5_chunking ["a", "b", "c", "d", "e"] (by decide)).2.2.2 "d" (by decide)⟩

/-- C8.  With fewer than three bands
`create_export_tasks_for_all_bands` fails with an out-of-range list
index (modelled as `none`: `chunks[-1]` on an empty chunk list for no
bands, `bands_chunk[1]` / `bands_chunk[2]` during video-name
construction for one or two bands); with at least three bands every
list index is in range and the function returns a result. -/
theorem C8_index_safety (fs : String → Bool) (imgcoll : ICExpr) (folder_name : String)
    (polygon : Geom) (loc_id : Int) (lat lon : ℚ) (start_date end_date : String) :
    (∀ bands : List String, bands.length < 3 →
      create_export_tasks_for_all_bands fs imgcoll bands folder_name polygon loc_id lat lon
        start_date end_date = none) ∧
    (∀ bands : List String, 3 ≤ bands.length →
      (create_export_tasks_for_all_bands fs imgcoll bands folder_name polygon loc_id lat lon
        start_date end_date).isSome = true) := by
  constructor
  · intro bands hlen
    rcases bands with _ | ⟨x0, _ | ⟨x1, _ | ⟨x2, rest⟩⟩⟩
    · rfl
    · have hc : chunksRaw [x0] = [[x0]] := by
        rw [chunksRaw_eq, show (([x0] : List String).length + 2) / 3 = 1 from by norm_num]
        rfl
      have hp : pyChunks [x0] = [[x0]] := by
        rw [pyChunks, hc, show ([x0] : List String).length - 3 = 0 from by norm_num]
        rfl
      rw [create_export_tasks_for_all_bands, hc, hp]
      rfl
    · have hc : chunksRaw [x0, x1] = [[x0, x1]] := by
        rw [chunksRaw_eq,
          show (([x0, x1] : List String).length + 2) / 3 = 1 from by norm_num]
        rfl
      have hp : pyChunks [x0, x1] = [[x0, x1]] := by
        rw [pyChunks, hc, show ([x0, x1] : List String).length - 3 = 0 from by norm_num]
        rfl
      rw [create_export_tasks_for_all_bands, hc, hp]
      rfl
    · simp only [List.length_cons] at hlen
      omega
  · intro bands hlen
    obtain ⟨ts, hts⟩ := create_export_isSome fs imgcoll bands folder_name polygon loc_id
      lat lon start_date end_date hlen
    rw [hts]
    rfl

/-- C8, witness: two bands fail, three bands succeed. -/
theorem C8_index_safety_witness :
    create_export_tasks_for_all_bands (fun _ => false) (ICExpr.base "M") ["x", "y"] "f"
      (Geom.point 0 0) 0 0 0 "s" "e" = none ∧
    (create_export_tasks_for_all_bands (fun _ => false) (ICExpr.base "M") ["x", "y", "z"] "f"
      (Geom.point 0 0) 0 0 0 "s" "e").isSome = true :=
  ⟨(C8_index_safety (fun _ => false) (ICExpr.base "M") "f" (Geom.point 0 0) 0 0 0 "s" "e").1
      ["x", "y"] (by decide),
   (C8_index_safety (fun _ => false) (ICExpr.base "M") "f" (Geom.point 0 0) 0 0 0 "s" "e").2
      ["x", "y", "z"] (by decide)⟩

/-- C7.  For every period `i`, `get_loc_satellite_tasks` builds the
collection of satellite `sat` filtered by `[start_dates[i],
end_dates[i]]` and by the bounds of the circular polygon around
`(latitude, longitude)`; `maskCloud` is mapped over the collection if
and only if `sat = 'MODIS/061/MOD09A1'`; afterwards pixels outside the
polygon are masked, every band of `bands` is normalized in order, the
images are converted to uint8, and the export tasks of all periods are
concatenated in period order. -/
theorem C7_get_loc_satellite_tasks (fs : String → Bool) (sat : String) (bands : List String)
    (start_dates end_dates : List String) (loc_id : Int) (folder_name : String)
    (latitude longitude polygon_area : ℚ) (h3 : 3 ≤ bands.length)
    (hlen : start_dates.length ≤ end_dates.length) :
    get_loc_satellite_tasks fs sat bands start_dates end_dates loc_id folder_name
        latitude longitude polygon_area =
      some (((start_dates.zip end_dates).map (fun p =>
        periodTasks fs sat bands loc_id folder_name
          (create_circular_bb_polygon (latitude, longitude) polygon_area)
          latitude longitude p.1 p.2)).flatten) ∧
    (∀ sd ed : String,
      periodColl sat bands (create_circular_bb_polygon (latitude, longitude) polygon_area)
          sd ed =
        ICExpr.mapUint8
          (bands.foldl
            (fun acc band => norm_band acc band
              (create_circular_bb_polygon (latitude, longitude) polygon_area))
            (ICExpr.mapClipMask
              (if sat = "MODIS/061/MOD09A1" then
                ICExpr.mapMaskCloud (ICExpr.filterBounds
                  (ICExpr.filterDate (ICExpr.base sat) sd ed)
                  (create_circular_bb_polygon (latitude, longitude) polygon_area))
              else
                ICExpr.filterBounds (ICExpr.filterDate (ICExpr.base sat) sd ed)
                  (create_circular_bb_polygon (latitude, longitude) polygon_area))
              (create_circular_bb_polygon (latitude, longitude) polygon_area)))) ∧
    (∀ sd ed : String,
      (periodColl sat bands (create_circular_bb_polygon (latitude, longitude) polygon_area)
          sd ed).hasMaskCloud = decide (sat = "MODIS/061/MOD09A1")) ∧
    (∀ sd ed : String,
      create_export_tasks_for_all_bands fs
        (periodColl sat bands (create_circular_bb_polygon (latitude, longitude) polygon_area)
          sd ed)
        bands folder_name
        (create_circular_bb_polygon (latitude, longitude) polygon_area) loc_id
        latitude longitude sd ed =
      some (periodTasks fs sat bands loc_id folder_name
        (create_circular_bb_polygon (latitude, longitude) polygon_area)
        latitude longitude sd ed)) := by
  refine ⟨?_, fun sd ed => rfl, fun sd ed => periodColl_hasMaskCloud sat bands _ sd ed, ?_⟩
  · exact loopPeriods_eq fs sat bands loc_id folder_name
      (create_circular_bb_polygon (latitude, longitude) polygon_area)
      latitude longitude h3 start_dates end_dates hlen
  · intro sd ed
    obtain ⟨ts, hts⟩ := create_export_isSome fs
      (periodColl sat bands (create_circular_bb_polygon (latitude, longitude) polygon_area)
        sd ed)
      bands folder_name
      (create_circular_bb_polygon (latitude, longitude) polygon_area) loc_id
      latitude longitude sd ed h3
    rw [hts, periodTasks, hts]
    rfl

/-- C7, witness: one period, three bands, a non-MODIS satellite. -/
theorem C7_get_loc_satellite_tasks_witness :
    get_loc_satellite_tasks (fun _ => false) "X" ["a", "b", "c"] ["s"] ["e"] 0 "f" 0 0 50 =
      some ((((["s"] : List String).zip (["e"] : List String)).map (fun p =>
        periodTasks (fun _ => false) "X" ["a", "b", "c"] 0 "f"
          (create_circular_bb_polygon (0, 0) 50) 0 0 p.1 p.2)).flatten) ∧
    (periodColl "X" ["a", "b", "c"] (create_circular_bb_polygon (0, 0) 50)
        "s" "e").hasMaskCloud = decide ("X" = "MODIS/061/MOD09A1") :=
  ⟨(C7_get_loc_satellite_tasks (fun _ => false) "X" ["a", "b", "c"] ["s"] ["e"] 0 "f" 0 0 50
      (by decide) (by decide)).1,
   (C7_get_loc_satellite_tasks (fun _ => false) "X" ["a", "b", "c"] ["s"] ["e"] 0 "f" 0 0 50
      (by decide) (by decide)).2.2.1 "s" "e"⟩

/-- C9.  `norm_band` reduces the selected band's min and max over the
polygon at scale `500`, maps each pixel value `x` to
`uint8(((x - min) / (max - min)) * 256)`, and combines the normalized
band back with `overwrite=True`.  A pixel equal to the band maximum is
scaled to `256` — one more than the largest uint8 value `255` — before
the cast, and combining overwrites exactly the band of the same name,
leaving all other bands unchanged. -/
theorem C9_norm_band (mn mx : ℚ) (h : mn < mx) :
    normPixel mx mn mx = 256 ∧
    (255 : ℚ) < 256 ∧
    (∀ (imgcoll : ICExpr) (band : String) (polygon : Geom),
      norm_band imgcoll band polygon =
        ICExpr.combineOverwrite imgcoll
          (ICExpr.mapNorm (ICExpr.select imgcoll [band])
            (NumExpr.reduceRegionGet (ImgExpr.collMin (ICExpr.select imgcoll [band])) "min"
              polygon 100000000000 500 band)
            (NumExpr.reduceRegionGet (ImgExpr.collMax (ICExpr.select imgcoll [band])) "max"
              polygon 100000000000 500 band))) ∧
    (∀ (bs : List (String × ℚ)) (band : String) (v : ℚ),
      band ∈ bs.map Prod.fst →
      combineBands bs [(band, v)] =
        bs.map (fun p => if p.1 = band then (band, v) else p)) := by
  refine ⟨?_, by norm_num, fun _ _ _ => rfl, ?_⟩
  · unfold normPixel
    rw [div_self (sub_ne_zero.mpr h.ne'), one_mul]
  · intro bs band v hband
    unfold combineBands
    have hany : bs.any (fun p => p.1 == band) = true := by
      rcases List.mem_map.mp hband with ⟨p, hp, hfst⟩
      exact List.any_eq_true.mpr ⟨p, hp, by simp [hfst]⟩
    have hfilter :
        ([(band, v)].filter (fun q => !(bs.any (fun p => p.1 == q.1)))) = [] := by
      simp only [List.filter_cons, List.filter_nil]
      rw [hany]
      rfl
    rw [hfilter, List.append_nil]
    apply List.map_congr_left
    intro p _
    by_cases hb : band = p.1
    · have hf : List.find? (fun q => q.1 == p.1) [(band, v)] = some (band, v) :=
        List.find?_cons_of_pos _ (by simp [hb])
      simp only [hf]
      subst hb
      simp
    · have hne : ¬ p.1 = band := fun hc => hb hc.symm
      have hf : List.find? (fun q => q.1 == p.1) [(band, v)] = none := by
        rw [List.find?_cons_of_neg _ (by simp [hb]), List.find?_nil]
      simp only [hf]
      simp [hne]

/-- C9, witness at `min = 0`, `max = 2`, and a two-band pixel. -/
theorem C9_norm_band_witness :
    normPixel 2 0 2 = 256 ∧
    combineBands [("a", 3), ("b", 4)] [("b", 9)] = [("a", 3), ("b", 9)] :=
  ⟨(C9_norm_band 0 2 (by norm_num)).1,
   by
    have := (C9_norm_band 0 2 (by norm_num)).2.2.2 [("a", 3), ("b", 4)] "b" 9 (by simp)
    simpa using this⟩

end SatUtils
